import Mathlib

/-!
Verification of the orchestration script `finetune.py` of the PINO
repository.  The script parses a YAML configuration, builds a data
loader, constructs and optionally checkpoint-loads an FNN3d model,
selectively freezes parameters, builds an Adam optimizer and a
MultiStepLR scheduler, and delegates training to an external `train`
routine; with `--num_gpus > 1` it spawns one worker process per GPU.

The development below is a shallow embedding of that script.  Python
exceptions are modelled with `Except`, the YAML document with an
association-list value type, and a run of `subprocess_fn` as a pair of
an event trace and a result.  External library behaviour (torch,
argparse, yaml, the repository's `train_utils` helpers that are not
part of the file) is modelled at its interface, as documented on each
definition.
-/

/-- Errors surfacing from the framework and from dictionary lookups:
the script defines no error handling of its own, so every failure is
one of these. -/
inductive PyErr where
  | keyError (key : String)
  | typeError (msg : String)
  | indexError
  | fileError (msg : String)
  | loadError (msg : String)
deriving DecidableEq

/-- A YAML value as produced by yaml.load: scalars, sequences and
mappings (mappings as association lists). -/
inductive Val where
  | str (s : String)
  | int (n : Int)
  | bool (b : Bool)
  | list (items : List Val)
  | dict (entries : List (String × Val))

instance : Inhabited Val := ⟨Val.dict []⟩

/-- Subscript access d[k] on a YAML value: KeyError when the key is
absent, TypeError when the value is not a mapping. -/
def Val.get : Val → String → Except PyErr Val
  | .dict es, k =>
    match es.lookup k with
    | some v => .ok v
    | none => .error (.keyError k)
  | _, _ => .error (.typeError "object is not subscriptable")

/-- Membership test `k in d` on a YAML value (TypeError on
non-mappings, mirroring `in` on a non-container). -/
def Val.contains : Val → String → Except PyErr Bool
  | .dict es, k => .ok (es.lookup k).isSome
  | _, _ => .error (.typeError "argument is not iterable")

/-- Coercion of a YAML value to a string (used for the checkpoint
path handed to torch.load). -/
def Val.asStr : Val → Except PyErr String
  | .str s => .ok s
  | _ => .error (.typeError "expected str")

/-- A single tensor parameter of the model, carrying its
requires_grad flag.  The identifier stands for the tensor itself. -/
structure Param where
  pid : Nat
  requires_grad : Bool
deriving DecidableEq

/-- A submodule: a container of parameters (a SpectralConv3d, a
Conv1d from ws, or a Linear layer). -/
structure NNModule where
  params : List Param
deriving DecidableEq, Inhabited

/-- Modelled from the spec: the FNN3d architecture lives in the
external `models` package and is out of scope; the script only uses
the submodule attributes sp_convs, ws, fc1 and fc2, the parameter
list, and load_state_dict.  It is therefore modelled abstractly as a
record of those submodules together with the remaining submodules
(such as the lifting layer) and a state dict that the script never
inspects. -/
structure FNN3d where
  sp_convs : List NNModule
  ws : List NNModule
  fc1 : NNModule
  fc2 : NNModule
  other_modules : List NNModule
  state : Val
deriving Inhabited

/-- The model's parameter enumeration, in registration order (the
other submodules first, mirroring the lifting layer being registered
before the spectral layers in FNO-style models). -/
def FNN3d.parameters (m : FNN3d) : List Param :=
  (m.other_modules.map NNModule.params).flatten ++
  (m.sp_convs.map NNModule.params).flatten ++
  (m.ws.map NNModule.params).flatten ++
  m.fc1.params ++ m.fc2.params

/-- Replacement of the model's state dict by a loaded one
(model.load_state_dict). -/
def FNN3d.load_state_dict (m : FNN3d) (sd : Val) : FNN3d :=
  { m with state := sd }

/-- Modelled from the spec: train_utils.utils.requires_grad is
external to the file shown; per the spec's description of the script
as "selectively freezes parameters", it sets the requires_grad flag
of every parameter of the module it is given.  This is the
submodule-level instance. -/
def requires_gradM (md : NNModule) (flag : Bool) : NNModule :=
  ⟨md.params.map fun p => { p with requires_grad := flag }⟩

/-- Modelled from the spec: the model-level instance of
train_utils.utils.requires_grad, setting the flag on every parameter
of every submodule. -/
def requires_grad (m : FNN3d) (flag : Bool) : FNN3d :=
  { m with
    sp_convs := m.sp_convs.map (requires_gradM · flag),
    ws := m.ws.map (requires_gradM · flag),
    fc1 := requires_gradM m.fc1 flag,
    fc2 := requires_gradM m.fc2 flag,
    other_modules := m.other_modules.map (requires_gradM · flag) }

/-- In-place update requires_grad(l[-1], flag) on a module list:
Python's negative indexing selects the last element and raises
IndexError on an empty list. -/
def setLast (flag : Bool) : List NNModule → Except PyErr (List NNModule)
  | [] => .error .indexError
  | [md] => .ok [requires_gradM md flag]
  | md :: md2 :: mds =>
    match setLast flag (md2 :: mds) with
    | .ok t => .ok (md :: t)
    | .error e => .error e

/-- Lines 73-77 of finetune.py: freeze the whole model, then
re-enable gradients on sp_convs[-1], ws[-1], fc1 and fc2. -/
def freezeStep (m : FNN3d) : Except PyErr FNN3d := do
  let m0 := requires_grad m false
  let sp ← setLast true m0.sp_convs
  let wl ← setLast true m0.ws
  pure { m0 with
         sp_convs := sp,
         ws := wl,
         fc1 := requires_gradM m0.fc1 true,
         fc2 := requires_gradM m0.fc2 true }

/-- Lines 78-81 of finetune.py: collect the parameters whose
requires_grad flag is set. -/
def params_to_update (m : FNN3d) : List Param :=
  m.parameters.filter fun p => p.requires_grad == true

/-- The parameters of the four submodules targeted by the unfreezing
calls: sp_convs[-1], ws[-1], fc1 and fc2. -/
def targetParams (m : FNN3d) : List Param :=
  (m.sp_convs.getLastD default).params ++
  (m.ws.getLastD default).params ++
  m.fc1.params ++ m.fc2.params

/-- The parameters of the model outside those four submodules. -/
def outsideParams (m : FNN3d) : List Param :=
  (m.other_modules.map NNModule.params).flatten ++
  (m.sp_convs.dropLast.map NNModule.params).flatten ++
  (m.ws.dropLast.map NNModule.params).flatten

/-- The object bound to the local variable `model`: either the FNN3d
instance itself, or (line 67) the DistributedDataParallel wrapper
around it, with the device_ids and broadcast_buffers arguments of the
DDP constructor.  DDP itself is external library code; only the
identity of the receiver object is modelled. -/
inductive ModelRef where
  | plain (m : FNN3d)
  | ddp (wrapped : FNN3d) (device_ids : List Nat) (broadcast_buffers : Bool)

instance : Inhabited ModelRef := ⟨ModelRef.plain default⟩

/-- Lines 66-67 of finetune.py: rebind `model` to the DDP wrapper
exactly when running distributed. -/
def bindModel (distributed : Bool) (rank : Nat) (m : FNN3d) : ModelRef :=
  if distributed then .ddp m [rank] false else .plain m

/-- The FNN3d instance reachable from the model variable (for the DDP
wrapper, the wrapped module; attribute access on the wrapper is
modelled as reaching the wrapped module, library-level name
resolution being out of scope). -/
def ModelRef.underlying : ModelRef → FNN3d
  | .plain m => m
  | .ddp m _ _ => m

/-- The freezing step applied through the model variable, preserving
the wrapping. -/
def freezeRef : ModelRef → Except PyErr ModelRef
  | .plain m => (freezeStep m).map .plain
  | .ddp m d b => (freezeStep m).map fun m2 => .ddp m2 d b

/-- The keyword arguments of the NSLoader constructor call
(lines 32-42). -/
structure NSLoaderArgs where
  datapath1 : Val
  datapath2 : Option Val
  nx : Val
  nt : Val
  sub : Val
  sub_t : Val
  N : Val
  t_interval : Val
deriving Inhabited

/-- The arguments of loader.make_dataset (lines 44-46). -/
structure DatasetArgs where
  n_sample : Val
  start : Val
  train : Val
deriving Inhabited

/-- The arguments of the DataLoader construction (lines 47-51). -/
structure DataLoaderArgs where
  batchsize : Val
  sampler_shuffle : Val
  sampler_distributed : Bool
  drop_last : Bool
deriving Inhabited

/-- The hyperparameters handed to the FNN3d constructor
(lines 54-58). -/
structure ModelHyper where
  modes1 : Val
  modes2 : Val
  modes3 : Val
  fc_dim : Val
  layers : Val
deriving Inhabited

/-- The arguments of the Adam construction (lines 83-84); the betas
pair is the constant (0.9, 0.999). -/
structure OptimizerArgs where
  params : List Param
  lr : Val
deriving Inhabited

/-- The arguments of the MultiStepLR construction (lines 85-87),
holding the optimizer it is built from. -/
structure SchedulerArgs where
  optimizer : OptimizerArgs
  milestones : Val
  gamma : Val
deriving Inhabited

/-- The keyword arguments of the train(...) call (lines 89-97). -/
structure TrainCallArgs where
  project : Val
  group : Val
  log : Bool
  rank : Nat
  profile : Bool
deriving Inhabited

/-- Lines 31-42 of finetune.py: the NSLoader construction, with the
datapath2 branch chosen by key membership in the data section. -/
def phaseLoader (data_config : Val) : Except PyErr NSLoaderArgs := do
  let hasD2 ← data_config.contains "datapath2"
  if hasD2 then do
    let dp1 ← data_config.get "datapath"
    let dp2 ← data_config.get "datapath2"
    let nxv ← data_config.get "nx"
    let ntv ← data_config.get "nt"
    let subv ← data_config.get "sub"
    let subtv ← data_config.get "sub_t"
    let nv ← data_config.get "total_num"
    let tiv ← data_config.get "time_interval"
    pure { datapath1 := dp1, datapath2 := some dp2, nx := nxv, nt := ntv,
           sub := subv, sub_t := subtv, N := nv, t_interval := tiv }
  else do
    let dp1 ← data_config.get "datapath"
    let nxv ← data_config.get "nx"
    let ntv ← data_config.get "nt"
    let subv ← data_config.get "sub"
    let subtv ← data_config.get "sub_t"
    let nv ← data_config.get "total_num"
    let tiv ← data_config.get "time_interval"
    pure { datapath1 := dp1, datapath2 := none, nx := nxv, nt := ntv,
           sub := subv, sub_t := subtv, N := nv, t_interval := tiv }

/-- Lines 44-46 of finetune.py: the make_dataset arguments. -/
def phaseDataset (data_config : Val) : Except PyErr DatasetArgs := do
  let ns ← data_config.get "n_sample"
  let off ← data_config.get "offset"
  let sh ← data_config.get "shuffle"
  pure { n_sample := ns, start := off, train := sh }

/-- Lines 47-51 of finetune.py: the DataLoader arguments, with the
sampler built by data_sampler from the shuffle flag and the
distributed flag, and drop_last set. -/
def phaseDataLoader (config data_config : Val) (distributed : Bool) :
    Except PyErr DataLoaderArgs := do
  let t ← config.get "train"
  let bs ← t.get "batchsize"
  let sh ← data_config.get "shuffle"
  pure { batchsize := bs, sampler_shuffle := sh,
         sampler_distributed := distributed, drop_last := true }

/-- Lines 54-58 of finetune.py: the FNN3d hyperparameters read from
the model section. -/
def phaseModel (config : Val) : Except PyErr ModelHyper := do
  let mc ← config.get "model"
  let m1 ← mc.get "modes1"
  let m2 ← mc.get "modes2"
  let m3 ← mc.get "modes3"
  let fd ← mc.get "fc_dim"
  let ly ← mc.get "layers"
  pure { modes1 := m1, modes2 := m2, modes3 := m3, fc_dim := fd, layers := ly }

/-- The external world the script runs against: open+yaml.load of the
configuration file, torch.load of a checkpoint, and the FNN3d
constructor from the external models package (all library or
out-of-file code, modelled at their interfaces; each loader may fail
with whatever error the framework raises). -/
structure World where
  readConfig : Option String → Except PyErr Val
  torchLoad : String → Except PyErr Val
  mkFNN3d : ModelHyper → FNN3d

/-- Lines 60-64 of finetune.py: load checkpoint weights exactly when
the train section has a ckpt key, replacing the model's state dict
with the checkpoint's model entry; the returned flag records whether
a checkpoint was loaded. -/
def phaseCkpt (w : World) (config : Val) (m : FNN3d) :
    Except PyErr (FNN3d × Bool) := do
  let t ← config.get "train"
  let hasCkpt ← t.contains "ckpt"
  if hasCkpt then do
    let pv ← t.get "ckpt"
    let ps ← pv.asStr
    let ckpt ← w.torchLoad ps
    let sd ← ckpt.get "model"
    pure (m.load_state_dict sd, true)
  else
    pure (m, false)

/-- Lines 83-84 of finetune.py: the learning rate for Adam. -/
def phaseOptimizer (config : Val) : Except PyErr Val := do
  let t ← config.get "train"
  t.get "base_lr"

/-- Lines 85-87 of finetune.py: milestones and gamma for
MultiStepLR. -/
def phaseScheduler (config : Val) : Except PyErr (Val × Val) := do
  let t ← config.get "train"
  let ms ← t.get "milestones"
  let g ← t.get "scheduler_gamma"
  pure (ms, g)

/-- Lines 95-96 of finetune.py: the project and group names read from
the others section while evaluating the train(...) arguments. -/
def phaseOthers (config : Val) : Except PyErr (Val × Val) := do
  let o ← config.get "others"
  let pj ← o.get "project"
  let gp ← o.get "group"
  pure (pj, gp)

/-- The record of everything a successful run of subprocess_fn
constructs and hands to the external train routine. -/
structure RunRecord where
  loaderArgs : NSLoaderArgs
  datasetArgs : DatasetArgs
  dataLoaderArgs : DataLoaderArgs
  hyper : ModelHyper
  freshModel : FNN3d
  modelAfterCkpt : FNN3d
  usedCkpt : Bool
  receiver : ModelRef
  frozenRef : ModelRef
  params_to_update : List Param
  optimizer : OptimizerArgs
  scheduler : SchedulerArgs
  trainCall : TrainCallArgs
deriving Inhabited

/-- The observable steps of a run of subprocess_fn, in the order they
complete. -/
inductive Event where
  | setup (rank : Nat) (world_size : Int)
  | printRunning
  | loadConfig
  | mkNSLoader
  | mkDataset
  | mkDataLoader
  | mkModel
  | loadCkpt
  | wrapDDP
  | freezeParams
  | mkOptimizer
  | mkScheduler
  | mkForcing
  | callTrain
  | cleanup
  | printDone
deriving DecidableEq

/-- Recognizer for the setup event. -/
def Event.isSetup : Event → Bool
  | .setup _ _ => true
  | _ => false

/-- Recognizer for the cleanup event. -/
def Event.isCleanup : Event → Bool
  | .cleanup => true
  | _ => false

/-- Recognizer for the DDP-wrapping event. -/
def Event.isWrapDDP : Event → Bool
  | .wrapDDP => true
  | _ => false

/-- Recognizer for the train call event. -/
def Event.isCallTrain : Event → Bool
  | .callTrain => true
  | _ => false

/-- The runtime argument namespace of the script: the three parsed
flags plus the distributed field attached on line 111. -/
structure Args where
  config_path : Option String
  log : Bool
  num_gpus : Int
  distributed : Bool
deriving DecidableEq

/-- Lines 25-101 of finetune.py after the setup call: the body of
subprocess_fn, returning the trace of completed steps and either the
record of constructed objects or the first error raised by a lookup
or loader, propagated unmodified. -/
def subprocessBody (w : World) (rank : Nat) (args : Args) :
    List Event × Except PyErr RunRecord :=
  match w.readConfig args.config_path with
  | .error e => ([], .error e)
  | .ok config =>
  match config.get "data" with
  | .error e => ([.loadConfig], .error e)
  | .ok data_config =>
  match phaseLoader data_config with
  | .error e => ([.loadConfig], .error e)
  | .ok la =>
  match phaseDataset data_config with
  | .error e => ([.loadConfig, .mkNSLoader], .error e)
  | .ok ds =>
  match phaseDataLoader config data_config args.distributed with
  | .error e => ([.loadConfig, .mkNSLoader, .mkDataset], .error e)
  | .ok dl =>
  match phaseModel config with
  | .error e => ([.loadConfig, .mkNSLoader, .mkDataset, .mkDataLoader], .error e)
  | .ok hy =>
  match phaseCkpt w config (w.mkFNN3d hy) with
  | .error e =>
    ([.loadConfig, .mkNSLoader, .mkDataset, .mkDataLoader, .mkModel], .error e)
  | .ok (m1, used) =>
  match freezeRef (bindModel args.distributed rank m1) with
  | .error e =>
    ([.loadConfig, .mkNSLoader, .mkDataset, .mkDataLoader, .mkModel] ++
     (if used then [Event.loadCkpt] else []) ++
     (if args.distributed then [Event.wrapDDP] else []), .error e)
  | .ok fr =>
  match phaseOptimizer config with
  | .error e =>
    ([.loadConfig, .mkNSLoader, .mkDataset, .mkDataLoader, .mkModel] ++
     (if used then [Event.loadCkpt] else []) ++
     (if args.distributed then [Event.wrapDDP] else []) ++
     [Event.freezeParams], .error e)
  | .ok lr =>
  match phaseScheduler config with
  | .error e =>
    ([.loadConfig, .mkNSLoader, .mkDataset, .mkDataLoader, .mkModel] ++
     (if used then [Event.loadCkpt] else []) ++
     (if args.distributed then [Event.wrapDDP] else []) ++
     [Event.freezeParams, Event.mkOptimizer], .error e)
  | .ok (ms, g) =>
  match phaseOthers config with
  | .error e =>
    ([.loadConfig, .mkNSLoader, .mkDataset, .mkDataLoader, .mkModel] ++
     (if used then [Event.loadCkpt] else []) ++
     (if args.distributed then [Event.wrapDDP] else []) ++
     [Event.freezeParams, Event.mkOptimizer, Event.mkScheduler, Event.mkForcing],
     .error e)
  | .ok (pj, gp) =>
    ([.loadConfig, .mkNSLoader, .mkDataset, .mkDataLoader, .mkModel] ++
     (if used then [Event.loadCkpt] else []) ++
     (if args.distributed then [Event.wrapDDP] else []) ++
     [Event.freezeParams, Event.mkOptimizer, Event.mkScheduler, Event.mkForcing,
      Event.callTrain] ++
     (if args.distributed then [Event.cleanup] else []) ++
     [Event.printDone],
     .ok { loaderArgs := la, datasetArgs := ds, dataLoaderArgs := dl,
           hyper := hy, freshModel := w.mkFNN3d hy, modelAfterCkpt := m1,
           usedCkpt := used,
           receiver := bindModel args.distributed rank m1,
           frozenRef := fr,
           params_to_update := params_to_update fr.underlying,
           optimizer := { params := params_to_update fr.underlying, lr := lr },
           scheduler := { optimizer := { params := params_to_update fr.underlying,
                                         lr := lr },
                          milestones := ms, gamma := g },
           trainCall := { project := pj, group := gp, log := args.log,
                          rank := rank, profile := true } })

/-- Lines 20-101 of finetune.py: subprocess_fn joins the process
group first when distributed (line 22), prints the running banner,
then runs the body. -/
def subprocess_fn (w : World) (rank : Nat) (args : Args) :
    List Event × Except PyErr RunRecord :=
  ((if args.distributed then [Event.setup rank args.num_gpus] else []) ++
   Event.printRunning :: (subprocessBody w rank args).1,
   (subprocessBody w rank args).2)

/-- Whether a process was spawned by mp.spawn or is the main
process. -/
inductive ProcTag where
  | spawned
  | main
deriving DecidableEq

/-- One process execution launched by the entry point. -/
structure ProcessRun where
  tag : ProcTag
  rank : Nat
  run : List Event × Except PyErr RunRecord

/-- The add_argument declarations of the parser (lines 107-109). -/
inductive ArgKind where
  | storeStr
  | storeTrue
  | storeInt
deriving DecidableEq

/-- One command-line option declaration. -/
structure ArgSpec where
  name : String
  kind : ArgKind
  defaultInt : Option Int
deriving DecidableEq

/-- Lines 107-109 of finetune.py: the three declared options and
nothing else. -/
def parserArgs : List ArgSpec :=
  [{ name := "--config_path", kind := .storeStr, defaultInt := none },
   { name := "--log", kind := .storeTrue, defaultInt := none },
   { name := "--num_gpus", kind := .storeInt, defaultInt := some 1 }]

/-- A parse failure of the command line. -/
inductive ParseErr where
  | unrecognized (tok : String)
  | missingValue (flag : String)
  | invalidInt (tok : String)
deriving DecidableEq

/-- The namespace produced by parse_args (line 110): config_path is
None when not supplied, log defaults to False, num_gpus to 1. -/
structure ParsedArgs where
  config_path : Option String
  log : Bool
  num_gpus : Int
deriving DecidableEq

/-- Digit-by-digit parse of a decimal numeral, accumulator style. -/
def digitsToNatAux : List Char → Nat → Option Nat
  | [], acc => some acc
  | c :: cs, acc =>
    if c.isDigit then digitsToNatAux cs (acc * 10 + (c.toNat - 48)) else none

/-- A non-empty decimal numeral as a natural number. -/
def digitsToNat : List Char → Option Nat
  | [] => none
  | c :: cs => digitsToNatAux (c :: cs) 0

/-- Modelled from the spec: argparse's int conversion for the
--num_gpus option, an optionally signed decimal integer. -/
def str2int (s : String) : Option Int :=
  match s.data with
  | [] => none
  | c :: cs =>
    if c = Char.ofNat 45 then (digitsToNat cs).map fun n => -(n : Int)
    else (digitsToNat (c :: cs)).map fun n => (n : Int)

/-- Modelled from the spec: argparse (external library) consumes the
token list for the parser declared on lines 107-109; --log is a
switch, --config_path and --num_gpus take one value, any other token
at an option position is rejected. -/
def parseTokens : List String → ParsedArgs → Except ParseErr ParsedArgs
  | [], acc => .ok acc
  | tok :: rest, acc =>
    if tok = "--log" then parseTokens rest { acc with log := true }
    else if tok = "--config_path" then
      match rest with
      | [] => .error (.missingValue tok)
      | v :: rest2 => parseTokens rest2 { acc with config_path := some v }
    else if tok = "--num_gpus" then
      match rest with
      | [] => .error (.missingValue tok)
      | v :: rest2 =>
        match str2int v with
        | some n => parseTokens rest2 { acc with num_gpus := n }
        | none => .error (.invalidInt v)
    else .error (.unrecognized tok)

/-- parse_args on a full command line, starting from the declared
defaults. -/
def parse_args (argv : List String) : Except ParseErr ParsedArgs :=
  parseTokens argv { config_path := none, log := false, num_gpus := 1 }

/-- Line 111 of finetune.py: attach the distributed flag,
num_gpus > 1. -/
def mkArgs (p : ParsedArgs) : Args :=
  { config_path := p.config_path, log := p.log, num_gpus := p.num_gpus,
    distributed := decide (p.num_gpus > 1) }

/-- Lines 113-116 of finetune.py: when distributed, mp.spawn launches
num_gpus worker processes running subprocess_fn at ranks 0..n-1
(mp.spawn's documented behaviour, the library itself being external);
otherwise subprocess_fn runs once in the main process at rank 0. -/
def mainRun (w : World) (p : ParsedArgs) : List ProcessRun :=
  let args := mkArgs p
  if args.distributed then
    (List.range args.num_gpus.toNat).map fun r =>
      { tag := ProcTag.spawned, rank := r, run := subprocess_fn w r args }
  else
    [{ tag := ProcTag.main, rank := 0, run := subprocess_fn w 0 args }]

/-- The key paths at which subprocess_fn reads configuration values
out of the loaded YAML mapping (lines 30-96): every value lives one
key below one of the four section keys. -/
def configValuePaths : List (List String) :=
  [["data", "datapath"], ["data", "datapath2"], ["data", "nx"], ["data", "nt"],
   ["data", "sub"], ["data", "sub_t"], ["data", "total_num"],
   ["data", "time_interval"], ["data", "n_sample"], ["data", "offset"],
   ["data", "shuffle"], ["train", "batchsize"],
   ["model", "modes1"], ["model", "modes2"], ["model", "modes3"],
   ["model", "fc_dim"], ["model", "layers"],
   ["train", "ckpt"], ["train", "base_lr"], ["train", "milestones"],
   ["train", "scheduler_gamma"], ["others", "project"], ["others", "group"]]

/-- A concrete configuration used to exercise the embedding: every
key the script reads is present and the train section carries a
checkpoint path. -/
def sampleDataCfg : Val :=
  .dict [("datapath", .str "data/NS.npy"), ("nx", .int 64), ("nt", .int 65),
         ("sub", .int 1), ("sub_t", .int 1), ("total_num", .int 100),
         ("time_interval", .int 1), ("n_sample", .int 50), ("offset", .int 0),
         ("shuffle", .bool true)]

/-- The train section of the concrete configuration. -/
def sampleTrainCfg : Val :=
  .dict [("batchsize", .int 4), ("ckpt", .str "ckpt.pt"), ("base_lr", .int 1),
         ("milestones", .list [.int 20, .int 40]), ("scheduler_gamma", .int 1)]

/-- The whole concrete configuration document. -/
def sampleCfg : Val :=
  .dict [("data", sampleDataCfg), ("train", sampleTrainCfg),
         ("model", .dict [("modes1", .int 8), ("modes2", .int 8),
                          ("modes3", .int 8), ("fc_dim", .int 128),
                          ("layers", .list [.int 64, .int 64])]),
         ("others", .dict [("project", .str "PINO"), ("group", .str "default")])]

/-- A concrete model instance with two spectral layers, two pointwise
layers, the two fully-connected layers and a lifting layer. -/
def sampleModel : FNN3d :=
  { sp_convs := [⟨[⟨0, true⟩, ⟨1, true⟩]⟩, ⟨[⟨2, true⟩]⟩],
    ws := [⟨[⟨3, true⟩]⟩, ⟨[⟨4, true⟩]⟩],
    fc1 := ⟨[⟨5, true⟩]⟩,
    fc2 := ⟨[⟨6, true⟩]⟩,
    other_modules := [⟨[⟨7, true⟩, ⟨8, true⟩]⟩],
    state := .dict [] }

/-- A concrete world: the configuration file and the checkpoint both
load successfully. -/
def sampleWorld : World :=
  { readConfig := fun p =>
      if p = some "config.yaml" then .ok sampleCfg
      else .error (.fileError "No such file or directory"),
    torchLoad := fun p =>
      if p = "ckpt.pt" then .ok (.dict [("model", .dict [("w", .int 1)])])
      else .error (.loadError p),
    mkFNN3d := fun _ => sampleModel }

/-- The argument namespace of a plain single-GPU invocation. -/
def sampleArgs : Args :=
  { config_path := some "config.yaml", log := false, num_gpus := 1,
    distributed := false }

/-- The record produced by the successful sample run. -/
def sampleRun : RunRecord :=
  ((subprocess_fn sampleWorld 0 sampleArgs).2).toOption.getD default

/-- Inversion of Except bind against a success result. -/
theorem except_bind_ok {α β : Type} (x : Except PyErr α)
    (f : α → Except PyErr β) (b : β) :
    (x >>= f) = .ok b ↔ ∃ a, x = .ok a ∧ f a = .ok b := by
  cases x <;> simp [Bind.bind, Except.bind]

/-- Inversion of Except pure against a success result. -/
theorem except_pure_ok {α : Type} (a b : α) :
    (pure a : Except PyErr α) = .ok b ↔ a = b := by
  simp [pure, Except.pure]

/-- Every parameter of a submodule processed by requires_gradM
carries the requested flag. -/
theorem requires_gradM_mem {md : NNModule} {b : Bool} {p : Param}
    (h : p ∈ (requires_gradM md b).params) : p.requires_grad = b := by
  simp only [requires_gradM, List.mem_map] at h
  obtain ⟨q, _, rfl⟩ := h
  rfl

/-- Every parameter of a module list processed elementwise by
requires_gradM carries the requested flag. -/
theorem requires_gradM_map_mem {ls : List NNModule} {b : Bool} {md : NNModule}
    (h : md ∈ ls.map (requires_gradM · b)) :
    ∀ p ∈ md.params, p.requires_grad = b := by
  simp only [List.mem_map] at h
  obtain ⟨q, _, rfl⟩ := h
  exact fun p hp => requires_gradM_mem hp

/-- Characterization of the in-place update of the last module of a
list: it succeeds exactly on non-empty lists and rewrites only the
last element. -/
theorem setLast_ok {b : Bool} :
    ∀ {l l2 : List NNModule}, setLast b l = .ok l2 →
      ∃ init lastM, l = init ++ [lastM] ∧ l2 = init ++ [requires_gradM lastM b]
  | [], _, h => by simp [setLast] at h
  | [md], l2, h => by
    simp only [setLast] at h
    exact ⟨[], md, rfl, by simpa using h.symm⟩
  | md :: md2 :: mds, l2, h => by
    simp only [setLast] at h
    cases h2 : setLast b (md2 :: mds) with
    | error e => rw [h2] at h; cases h
    | ok t =>
      rw [h2] at h
      obtain ⟨init, lastM, hi, ht⟩ := setLast_ok h2
      cases h
      exact ⟨md :: init, lastM, by simp [hi], by simp [ht]⟩

/-- The last element of a list extended by one element. -/
theorem getLastD_append_single {α : Type} (l : List α) (a d : α) :
    (l ++ [a]).getLastD d = a := by
  cases l with
  | nil => rfl
  | cons x xs =>
    rw [List.getLastD_eq_getLast?, List.getLast?_concat]
    rfl

/-- A parameter found in the flattened parameter lists of a module
list belongs to one of its modules. -/
theorem params_mem_flatten {ls : List NNModule} {p : Param}
    (hp : p ∈ (ls.map NNModule.params).flatten) : ∃ md ∈ ls, p ∈ md.params := by
  rw [List.mem_flatten] at hp
  obtain ⟨l, hl, hpl⟩ := hp
  rw [List.mem_map] at hl
  obtain ⟨md, hmd, rfl⟩ := hl
  exact ⟨md, hmd, hpl⟩

/-- Filtering for enabled gradients drops every module list whose
parameters are all frozen. -/
theorem filter_flatten_false {ls : List NNModule}
    (h : ∀ md ∈ ls, ∀ p ∈ md.params, p.requires_grad = false) :
    ((ls.map NNModule.params).flatten.filter fun p => p.requires_grad == true)
      = [] := by
  rw [List.filter_eq_nil_iff]
  intro p hp
  obtain ⟨md, hmd, hpl⟩ := params_mem_flatten hp
  simp [h md hmd p hpl]

/-- Filtering for enabled gradients keeps a parameter list whose
flags are all set. -/
theorem filter_params_true {ps : List Param}
    (h : ∀ p ∈ ps, p.requires_grad = true) :
    (ps.filter fun p => p.requires_grad == true) = ps := by
  rw [List.filter_eq_self]
  intro p hp
  simp [h p hp]

/-- Full characterization of the freezing step of lines 73-81: on
success, parameters outside sp_convs[-1], ws[-1], fc1 and fc2 are
frozen, the parameters of those four submodules are enabled, and the
params_to_update collection is exactly the four submodules'
parameters. -/
theorem freezeStep_ok {m m2 : FNN3d} (h : freezeStep m = .ok m2) :
    (∀ p ∈ outsideParams m2, p.requires_grad = false) ∧
    (∀ p ∈ targetParams m2, p.requires_grad = true) ∧
    params_to_update m2 = targetParams m2 := by
  simp only [freezeStep] at h
  rw [except_bind_ok] at h
  obtain ⟨sp, hsp, h⟩ := h
  rw [except_bind_ok] at h
  obtain ⟨wl, hwl, h⟩ := h
  rw [except_pure_ok] at h
  subst h
  obtain ⟨i1, l1, hi1, rfl⟩ := setLast_ok hsp
  obtain ⟨i2, l2, hi2, rfl⟩ := setLast_ok hwl
  simp only [requires_grad] at hi1 hi2
  have hinit1 : ∀ md ∈ i1, ∀ p ∈ md.params, p.requires_grad = false := by
    intro md hmd
    exact requires_gradM_map_mem (hi1 ▸ List.mem_append_left [l1] hmd)
  have hinit2 : ∀ md ∈ i2, ∀ p ∈ md.params, p.requires_grad = false := by
    intro md hmd
    exact requires_gradM_map_mem (hi2 ▸ List.mem_append_left [l2] hmd)
  refine ⟨?_, ?_, ?_⟩
  · intro p hp
    simp only [outsideParams, requires_grad, List.dropLast_concat,
      List.mem_append] at hp
    rcases hp with (hp | hp) | hp
    · obtain ⟨md, hmd, hpl⟩ := params_mem_flatten hp
      exact requires_gradM_map_mem hmd p hpl
    · obtain ⟨md, hmd, hpl⟩ := params_mem_flatten hp
      exact hinit1 md hmd p hpl
    · obtain ⟨md, hmd, hpl⟩ := params_mem_flatten hp
      exact hinit2 md hmd p hpl
  · intro p hp
    simp only [targetParams, requires_grad, getLastD_append_single,
      List.mem_append] at hp
    rcases hp with ((hp | hp) | hp) | hp
    · exact requires_gradM_mem hp
    · exact requires_gradM_mem hp
    · exact requires_gradM_mem hp
    · exact requires_gradM_mem hp
  · simp only [params_to_update, FNN3d.parameters, targetParams, requires_grad,
      getLastD_append_single, List.map_append, List.flatten_append,
      List.filter_append]
    rw [filter_flatten_false (by
      intro md hmd
      exact requires_gradM_map_mem hmd)]
    rw [filter_flatten_false hinit1, filter_flatten_false hinit2]
    simp only [List.map_cons, List.map_nil, List.flatten_cons, List.flatten_nil,
      List.append_nil, List.nil_append]
    rw [filter_params_true (fun p hp => requires_gradM_mem hp),
        filter_params_true (fun p hp => requires_gradM_mem hp),
        filter_params_true (fun p hp => requires_gradM_mem hp),
        filter_params_true (fun p hp => requires_gradM_mem hp)]

/-- Inversion of a successful run of the body: every phase succeeded
in order and the record fields are exactly the constructed objects. -/
theorem subprocessBody_ok {w : World} {rank : Nat} {args : Args} {r : RunRecord}
    (h : (subprocessBody w rank args).2 = .ok r) :
    ∃ cfg data_config,
      w.readConfig args.config_path = .ok cfg ∧
      cfg.get "data" = .ok data_config ∧
      phaseLoader data_config = .ok r.loaderArgs ∧
      phaseDataset data_config = .ok r.datasetArgs ∧
      phaseDataLoader cfg data_config args.distributed = .ok r.dataLoaderArgs ∧
      phaseModel cfg = .ok r.hyper ∧
      r.freshModel = w.mkFNN3d r.hyper ∧
      phaseCkpt w cfg r.freshModel = .ok (r.modelAfterCkpt, r.usedCkpt) ∧
      r.receiver = bindModel args.distributed rank r.modelAfterCkpt ∧
      freezeRef r.receiver = .ok r.frozenRef ∧
      r.params_to_update = params_to_update r.frozenRef.underlying ∧
      r.optimizer.params = r.params_to_update ∧
      phaseOptimizer cfg = .ok r.optimizer.lr ∧
      r.scheduler.optimizer = r.optimizer ∧
      phaseScheduler cfg = .ok (r.scheduler.milestones, r.scheduler.gamma) ∧
      phaseOthers cfg = .ok (r.trainCall.project, r.trainCall.group) ∧
      r.trainCall.log = args.log ∧ r.trainCall.rank = rank ∧
      r.trainCall.profile = true := by
  unfold subprocessBody at h
  cases hc : w.readConfig args.config_path with
  | error e => simp [hc] at h
  | ok cfg =>
  rw [hc] at h
  dsimp only at h
  cases hdt : cfg.get "data" with
  | error e => simp [hdt] at h
  | ok data_config =>
  rw [hdt] at h
  dsimp only at h
  cases hl : phaseLoader data_config with
  | error e => simp [hl] at h
  | ok la =>
  rw [hl] at h
  dsimp only at h
  cases hds : phaseDataset data_config with
  | error e => simp [hds] at h
  | ok ds =>
  rw [hds] at h
  dsimp only at h
  cases hdl : phaseDataLoader cfg data_config args.distributed with
  | error e => simp [hdl] at h
  | ok dl =>
  rw [hdl] at h
  dsimp only at h
  cases hm : phaseModel cfg with
  | error e => simp [hm] at h
  | ok hy =>
  rw [hm] at h
  dsimp only at h
  cases hck : phaseCkpt w cfg (w.mkFNN3d hy) with
  | error e => simp [hck] at h
  | ok p =>
  obtain ⟨m1, used⟩ := p
  rw [hck] at h
  dsimp only at h
  cases hfr : freezeRef (bindModel args.distributed rank m1) with
  | error e => simp [hfr] at h
  | ok fr =>
  rw [hfr] at h
  dsimp only at h
  cases hopt : phaseOptimizer cfg with
  | error e => simp [hopt] at h
  | ok lr =>
  rw [hopt] at h
  dsimp only at h
  cases hsch : phaseScheduler cfg with
  | error e => simp [hsch] at h
  | ok p2 =>
  obtain ⟨ms, g⟩ := p2
  rw [hsch] at h
  dsimp only at h
  cases hoth : phaseOthers cfg with
  | error e => simp [hoth] at h
  | ok p3 =>
  obtain ⟨pj, gp⟩ := p3
  rw [hoth] at h
  dsimp only at h
  simp only [Except.ok.injEq] at h
  subst h
  exact ⟨cfg, data_config, rfl, hdt, hl, hds, hdl, hm, rfl, hck, rfl, hfr,
    rfl, rfl, hopt, rfl, hsch, hoth, rfl, rfl, rfl⟩

/-- When the run is not distributed, no setup, cleanup or
DDP-wrapping step appears in the body's trace, whether the run
succeeds or dies on an error. -/
theorem subprocessBody_noDist {w : World} {rank : Nat} {args : Args}
    (hd : args.distributed = false) :
    ((subprocessBody w rank args).1.all
      fun e => !(e.isSetup || e.isCleanup || e.isWrapDDP)) = true := by
  unfold subprocessBody
  repeat' split
  all_goals simp_all [Event.isSetup, Event.isCleanup, Event.isWrapDDP]

/-- When the run is not distributed, no setup, cleanup or
DDP-wrapping step appears anywhere in the trace of subprocess_fn. -/
theorem subprocess_fn_noDist {w : World} {rank : Nat} {args : Args}
    (hd : args.distributed = false) :
    ((subprocess_fn w rank args).1.all
      fun e => !(e.isSetup || e.isCleanup || e.isWrapDDP)) = true := by
  unfold subprocess_fn
  rw [hd]
  simpa [Event.isSetup, Event.isCleanup, Event.isWrapDDP]
    using @subprocessBody_noDist w rank args hd

/-- When the run is distributed, the very first step of the trace is
the setup call joining the process group. -/
theorem subprocess_fn_dist_head {w : World} {rank : Nat} {args : Args}
    (hd : args.distributed = true) :
    ∃ t, (subprocess_fn w rank args).1
      = Event.setup rank args.num_gpus :: t := by
  unfold subprocess_fn
  rw [hd]
  exact ⟨_, rfl⟩

/-- The freezing step through the model variable acts on the
underlying FNN3d instance. -/
theorem freezeRef_ok {mr fr : ModelRef} (h : freezeRef mr = .ok fr) :
    freezeStep mr.underlying = .ok fr.underlying := by
  cases mr with
  | plain m =>
    cases hf : freezeStep m with
    | error e => simp [freezeRef, hf, Except.map] at h
    | ok m2 =>
      simp only [freezeRef, hf, Except.map, Except.ok.injEq] at h
      subst h
      simpa [ModelRef.underlying] using hf
  | ddp m d b =>
    cases hf : freezeStep m with
    | error e => simp [freezeRef, hf, Except.map] at h
    | ok m2 =>
      simp only [freezeRef, hf, Except.map, Except.ok.injEq] at h
      subst h
      simpa [ModelRef.underlying] using hf

/-- Options not mentioned on the command line keep the value they had
before parsing: in particular --log and --num_gpus keep their
defaults when absent. -/
theorem parseTokens_preserve :
    ∀ (argv : List String) (acc a : ParsedArgs),
      parseTokens argv acc = .ok a →
      ("--log" ∉ argv → a.log = acc.log) ∧
      ("--num_gpus" ∉ argv → a.num_gpus = acc.num_gpus)
  | [], acc, a, h => by
    simp only [parseTokens, Except.ok.injEq] at h
    subst h
    exact ⟨fun _ => rfl, fun _ => rfl⟩
  | tok :: rest, acc, a, h => by
    rw [parseTokens.eq_def] at h
    dsimp only at h
    by_cases h1 : tok = "--log"
    · rw [if_pos h1] at h
      have ih := parseTokens_preserve rest _ a h
      constructor
      · intro hn
        exact absurd (h1 ▸ List.mem_cons_self tok rest) hn
      · intro hn
        simpa using ih.2 fun hm => hn (List.mem_cons_of_mem _ hm)
    · rw [if_neg h1] at h
      by_cases h2 : tok = "--config_path"
      · rw [if_pos h2] at h
        cases rest with
        | nil => simp at h
        | cons v rest2 =>
          dsimp only at h
          have ih := parseTokens_preserve rest2 _ a h
          constructor
          · intro hn
            simpa using ih.1 fun hm =>
              hn (List.mem_cons_of_mem _ (List.mem_cons_of_mem _ hm))
          · intro hn
            simpa using ih.2 fun hm =>
              hn (List.mem_cons_of_mem _ (List.mem_cons_of_mem _ hm))
      · rw [if_neg h2] at h
        by_cases h3 : tok = "--num_gpus"
        · rw [if_pos h3] at h
          cases rest with
          | nil => simp at h
          | cons v rest2 =>
            dsimp only at h
            cases hv : str2int v with
            | none => rw [hv] at h; simp at h
            | some n =>
              rw [hv] at h
              have ih := parseTokens_preserve rest2 _ a h
              constructor
              · intro hn
                simpa using ih.1 fun hm =>
                  hn (List.mem_cons_of_mem _ (List.mem_cons_of_mem _ hm))
              · intro hn
                exact absurd (h3 ▸ List.mem_cons_self tok (v :: rest2)) hn
        · rw [if_neg h3] at h
          simp at h

/-- C1: after the model is constructed and optionally
checkpoint-loaded, subprocess_fn freezes the whole model and then
re-enables gradients only on sp_convs[-1], ws[-1], fc1 and fc2:
every parameter outside those four submodules still has
requires_grad false and is excluded from the params_to_update list
handed to the Adam optimizer, which collects exactly the four
submodules' parameters. -/
theorem C1_selective_unfreezing {w : World} {rank : Nat} {args : Args}
    {r : RunRecord} (h : (subprocess_fn w rank args).2 = .ok r) :
    (∀ p ∈ outsideParams r.frozenRef.underlying,
        p.requires_grad = false ∧ p ∉ r.params_to_update) ∧
    (∀ p ∈ targetParams r.frozenRef.underlying, p.requires_grad = true) ∧
    r.params_to_update = targetParams r.frozenRef.underlying ∧
    r.optimizer.params = r.params_to_update := by
  obtain ⟨cfg, dc, _, _, _, _, _, _, _, _, _, hfr, hptu, hoptp, _⟩ :=
    subprocessBody_ok h
  obtain ⟨hout, htgt, heq⟩ := freezeStep_ok (freezeRef_ok hfr)
  refine ⟨?_, htgt, by rw [hptu, heq], hoptp⟩
  intro p hp
  refine ⟨hout p hp, ?_⟩
  intro hmem
  rw [hptu, heq] at hmem
  have htrue := htgt p hmem
  rw [hout p hp] at htrue
  cases htrue

/-- Witness for C1 at the concrete sample run. -/
theorem C1_selective_unfreezing_witness :
    (∀ p ∈ outsideParams sampleRun.frozenRef.underlying,
        p.requires_grad = false ∧ p ∉ sampleRun.params_to_update) ∧
    (∀ p ∈ targetParams sampleRun.frozenRef.underlying,
        p.requires_grad = true) ∧
    sampleRun.params_to_update = targetParams sampleRun.frozenRef.underlying ∧
    sampleRun.optimizer.params = sampleRun.params_to_update :=
  @C1_selective_unfreezing sampleWorld 0 sampleArgs sampleRun (by rfl)

/-- C2: with args.distributed the model variable is rebound to the
DDP wrapper before the selective-unfreezing calls, so the attribute
accesses of those calls are resolved on the wrapper object; without
it they are resolved on the FNN3d instance itself, and the two
receiver objects are distinct. -/
theorem C2_unfreeze_receiver (m : FNN3d) (rank : Nat) :
    bindModel true rank m = ModelRef.ddp m [rank] false ∧
    bindModel false rank m = ModelRef.plain m ∧
    bindModel true rank m ≠ bindModel false rank m := by
  refine ⟨rfl, rfl, ?_⟩
  simp [bindModel]

/-- C4 counterexample: the value at key datapath of the data section
is not reached by a single-level key access from the loaded mapping:
its access path has two keys. -/
theorem C4_flat_lookup_counterexample :
    ["data", "datapath"] ∈ configValuePaths ∧
    ¬(∀ p ∈ configValuePaths, p.length = 1) := by
  constructor
  · decide
  · intro hall
    have h2 := hall ["data", "datapath"] (by decide)
    simp at h2

/-- C4 (amended): every configuration value used by the script is
obtained by a two-level lookup, a section key among data, train,
model and others followed by one flat key inside that section. -/
theorem C4_two_level_lookups :
    (configValuePaths.all fun p =>
      p.length == 2 &&
      ["data", "train", "model", "others"].contains (p.headD "")) = true := by
  decide

/-- C8: the NSLoader is constructed with a datapath2 argument exactly
when the data section has that key, and in both branches the
remaining constructor arguments are read from the same keys of the
same section. -/
theorem C8_loader_construction {d : Val} {la : NSLoaderArgs}
    (h : phaseLoader d = .ok la) :
    (la.datapath2.isSome = true ↔ d.contains "datapath2" = .ok true) ∧
    (∀ v, la.datapath2 = some v → d.get "datapath2" = .ok v) ∧
    d.get "datapath" = .ok la.datapath1 ∧
    d.get "nx" = .ok la.nx ∧
    d.get "nt" = .ok la.nt ∧
    d.get "sub" = .ok la.sub ∧
    d.get "sub_t" = .ok la.sub_t ∧
    d.get "total_num" = .ok la.N ∧
    d.get "time_interval" = .ok la.t_interval := by
  simp only [phaseLoader] at h
  rw [except_bind_ok] at h
  obtain ⟨hasD2, hcont, h⟩ := h
  cases hasD2 with
  | true =>
    rw [if_pos rfl] at h
    simp only [except_bind_ok, except_pure_ok] at h
    obtain ⟨dp1, h1, dp2, h2, nxv, h3, ntv, h4, subv, h5, subtv, h6, nv, h7,
      tiv, h8, heq⟩ := h
    subst heq
    refine ⟨⟨fun _ => hcont, fun _ => rfl⟩, ?_, h1, h3, h4, h5, h6, h7, h8⟩
    intro v hv
    cases hv
    exact h2
  | false =>
    rw [if_neg (by simp)] at h
    simp only [except_bind_ok, except_pure_ok] at h
    obtain ⟨dp1, h1, nxv, h3, ntv, h4, subv, h5, subtv, h6, nv, h7,
      tiv, h8, heq⟩ := h
    subst heq
    refine ⟨⟨fun hx => by simp at hx, fun hx => ?_⟩, ?_, h1, h3, h4, h5, h6,
      h7, h8⟩
    · rw [hcont] at hx
      simp at hx
    · intro v hv
      cases hv

/-- The NSLoader arguments computed from the sample data section. -/
def sampleLoaderArgs : NSLoaderArgs :=
  (phaseLoader sampleDataCfg).toOption.getD default

/-- Witness for C8 at the sample data section. -/
theorem C8_loader_construction_witness :
    (sampleLoaderArgs.datapath2.isSome = true ↔
      sampleDataCfg.contains "datapath2" = .ok true) ∧
    (∀ v, sampleLoaderArgs.datapath2 = some v →
      sampleDataCfg.get "datapath2" = .ok v) ∧
    sampleDataCfg.get "datapath" = .ok sampleLoaderArgs.datapath1 ∧
    sampleDataCfg.get "nx" = .ok sampleLoaderArgs.nx ∧
    sampleDataCfg.get "nt" = .ok sampleLoaderArgs.nt ∧
    sampleDataCfg.get "sub" = .ok sampleLoaderArgs.sub ∧
    sampleDataCfg.get "sub_t" = .ok sampleLoaderArgs.sub_t ∧
    sampleDataCfg.get "total_num" = .ok sampleLoaderArgs.N ∧
    sampleDataCfg.get "time_interval" = .ok sampleLoaderArgs.t_interval :=
  @C8_loader_construction sampleDataCfg sampleLoaderArgs (by rfl)

/-- A train section without a ckpt key. -/
def sampleTrainCfgNoCkpt : Val :=
  .dict [("batchsize", .int 4), ("base_lr", .int 1),
         ("milestones", .list [.int 20, .int 40]), ("scheduler_gamma", .int 1)]

/-- The sample configuration with the checkpoint entry removed. -/
def sampleCfgNoCkpt : Val :=
  .dict [("data", sampleDataCfg), ("train", sampleTrainCfgNoCkpt),
         ("model", .dict [("modes1", .int 8), ("modes2", .int 8),
                          ("modes3", .int 8), ("fc_dim", .int 128),
                          ("layers", .list [.int 64, .int 64])]),
         ("others", .dict [("project", .str "PINO"), ("group", .str "default")])]

/-- C7: checkpoint weights are loaded if and only if the train
section has a ckpt key; in that case the model's state dict is
replaced with the checkpoint's model entry, and this happens before
the DDP rebinding of the model variable and before the freezing
step; without the key the freshly constructed model is used
unchanged. -/
theorem C7_ckpt_loading :
    (∀ (w : World) (cfg : Val) (m : FNN3d) (t : Val),
        cfg.get "train" = .ok t → t.contains "ckpt" = .ok false →
        phaseCkpt w cfg m = .ok (m, false)) ∧
    (∀ (w : World) (cfg : Val) (m : FNN3d) (t pv : Val) (ps : String)
        (ck sd : Val),
        cfg.get "train" = .ok t → t.contains "ckpt" = .ok true →
        t.get "ckpt" = .ok pv → pv.asStr = .ok ps →
        w.torchLoad ps = .ok ck → ck.get "model" = .ok sd →
        phaseCkpt w cfg m = .ok (m.load_state_dict sd, true)) ∧
    (∀ (w : World) (rank : Nat) (args : Args) (r : RunRecord),
        (subprocess_fn w rank args).2 = .ok r →
        r.receiver = bindModel args.distributed rank r.modelAfterCkpt ∧
        freezeRef r.receiver = .ok r.frozenRef ∧
        ∃ cfg, w.readConfig args.config_path = .ok cfg ∧
          phaseCkpt w cfg r.freshModel = .ok (r.modelAfterCkpt, r.usedCkpt)) := by
  refine ⟨?_, ?_, ?_⟩
  · intro w cfg m t h1 h2
    simp [phaseCkpt, h1, h2, Bind.bind, Except.bind, pure, Except.pure]
  · intro w cfg m t pv ps ck sd h1 h2 h3 h4 h5 h6
    simp [phaseCkpt, h1, h2, h3, h4, h5, h6, Bind.bind, Except.bind, pure,
      Except.pure]
  · intro w rank args r h
    obtain ⟨cfg, dc, hc, _, _, _, _, _, _, hck, hrecv, hfr, _⟩ :=
      subprocessBody_ok h
    exact ⟨hrecv, hfr, cfg, hc, hck⟩

/-- Witness for C7: the sample configuration with and without the
ckpt key, and the sample run. -/
theorem C7_ckpt_loading_witness :
    phaseCkpt sampleWorld sampleCfgNoCkpt sampleModel
      = .ok (sampleModel, false) ∧
    phaseCkpt sampleWorld sampleCfg sampleModel
      = .ok (sampleModel.load_state_dict (.dict [("w", .int 1)]), true) ∧
    (sampleRun.receiver
        = bindModel sampleArgs.distributed 0 sampleRun.modelAfterCkpt ∧
      freezeRef sampleRun.receiver = .ok sampleRun.frozenRef ∧
      ∃ cfg, sampleWorld.readConfig sampleArgs.config_path = .ok cfg ∧
        phaseCkpt sampleWorld cfg sampleRun.freshModel
          = .ok (sampleRun.modelAfterCkpt, sampleRun.usedCkpt)) :=
  ⟨C7_ckpt_loading.1 sampleWorld sampleCfgNoCkpt sampleModel
      sampleTrainCfgNoCkpt (by rfl) (by rfl),
   C7_ckpt_loading.2.1 sampleWorld sampleCfg sampleModel sampleTrainCfg
      (.str "ckpt.pt") "ckpt.pt" (.dict [("model", .dict [("w", .int 1)])])
      (.dict [("w", .int 1)]) (by rfl) (by rfl) (by rfl) (by rfl) (by rfl)
      (by rfl),
   C7_ckpt_loading.2.2 sampleWorld 0 sampleArgs sampleRun (by rfl)⟩

/-- The make_dataset arguments computed from the sample data
section. -/
def sampleDatasetArgs : DatasetArgs :=
  (phaseDataset sampleDataCfg).toOption.getD default

/-- The DataLoader arguments computed from the sample
configuration. -/
def sampleDataLoaderArgs : DataLoaderArgs :=
  (phaseDataLoader sampleCfg sampleDataCfg false).toOption.getD default

/-- The FNN3d hyperparameters computed from the sample
configuration. -/
def sampleHyper : ModelHyper :=
  (phaseModel sampleCfg).toOption.getD default

/-- A world whose configuration file cannot be read. -/
def emptyWorld : World :=
  { readConfig := fun _ => .error (.fileError "No such file or directory"),
    torchLoad := fun _ => .error (.loadError "unreadable"),
    mkFNN3d := fun _ => sampleModel }

/-- A world whose configuration lacks the data section. -/
def noDataWorld : World :=
  { emptyWorld with
    readConfig := fun _ => .ok (.dict [("train", sampleTrainCfg)]) }

/-- The sample world with a failing checkpoint loader. -/
def badLoadWorld : World :=
  { sampleWorld with torchLoad := fun p => .error (.loadError p) }

/-- C5: the script catches no exceptions and raises none of its own:
a failing configuration read, a missing key such as data, or a
failing checkpoint load each surface from subprocess_fn as exactly
the underlying error, unmodified. -/
theorem C5_error_propagation :
    (∀ (w : World) (rank : Nat) (args : Args) (e : PyErr),
        w.readConfig args.config_path = .error e →
        (subprocess_fn w rank args).2 = .error e) ∧
    (∀ (w : World) (rank : Nat) (args : Args) (cfg : Val) (e : PyErr),
        w.readConfig args.config_path = .ok cfg →
        cfg.get "data" = .error e →
        (subprocess_fn w rank args).2 = .error e) ∧
    (∀ (w : World) (rank : Nat) (args : Args) (cfg d : Val)
        (la : NSLoaderArgs) (ds : DatasetArgs) (dl : DataLoaderArgs)
        (hy : ModelHyper) (t pv : Val) (ps : String) (e : PyErr),
        w.readConfig args.config_path = .ok cfg →
        cfg.get "data" = .ok d →
        phaseLoader d = .ok la →
        phaseDataset d = .ok ds →
        phaseDataLoader cfg d args.distributed = .ok dl →
        phaseModel cfg = .ok hy →
        cfg.get "train" = .ok t →
        t.contains "ckpt" = .ok true →
        t.get "ckpt" = .ok pv →
        pv.asStr = .ok ps →
        w.torchLoad ps = .error e →
        (subprocess_fn w rank args).2 = .error e) := by
  refine ⟨?_, ?_, ?_⟩
  · intro w rank args e h1
    simp [subprocess_fn, subprocessBody, h1]
  · intro w rank args cfg e h1 h2
    simp [subprocess_fn, subprocessBody, h1, h2]
  · intro w rank args cfg d la ds dl hy t pv ps e h1 h2 h3 h4 h5 h6 h7 h8 h9
      h10 h11
    have hck : phaseCkpt w cfg (w.mkFNN3d hy) = .error e := by
      simp [phaseCkpt, h7, h8, h9, h10, h11, Bind.bind, Except.bind]
    simp [subprocess_fn, subprocessBody, h1, h2, h3, h4, h5, h6, hck]

/-- Witness for C5: three concrete failing worlds. -/
theorem C5_error_propagation_witness :
    (subprocess_fn emptyWorld 0 sampleArgs).2
      = .error (.fileError "No such file or directory") ∧
    (subprocess_fn noDataWorld 0 sampleArgs).2 = .error (.keyError "data") ∧
    (subprocess_fn badLoadWorld 0 sampleArgs).2
      = .error (.loadError "ckpt.pt") :=
  ⟨C5_error_propagation.1 emptyWorld 0 sampleArgs _ (by rfl),
   C5_error_propagation.2.1 noDataWorld 0 sampleArgs
      (.dict [("train", sampleTrainCfg)]) _ (by rfl) (by rfl),
   C5_error_propagation.2.2 badLoadWorld 0 sampleArgs sampleCfg sampleDataCfg
      sampleLoaderArgs sampleDatasetArgs sampleDataLoaderArgs sampleHyper
      sampleTrainCfg (.str "ckpt.pt") "ckpt.pt" (.loadError "ckpt.pt")
      (by rfl) (by rfl) (by rfl) (by rfl) (by rfl) (by rfl) (by rfl) (by rfl)
      (by rfl) (by rfl) (by rfl)⟩

/-- C9: on every completing run, subprocess_fn performs its steps in
the fixed order load-config, NSLoader, dataset, DataLoader, model
construction (with the optional checkpoint load), parameter
freezing, Adam optimizer then MultiStepLR scheduler, forcing term,
and finally exactly one call of the external train routine. -/
theorem C9_step_order (w : World) (rank : Nat) (args : Args)
    (cfg d : Val) (la : NSLoaderArgs) (ds : DatasetArgs) (dl : DataLoaderArgs)
    (hy : ModelHyper) (m1 : FNN3d) (used : Bool) (fr : ModelRef)
    (lr ms g pj gp : Val)
    (h1 : w.readConfig args.config_path = .ok cfg)
    (h2 : cfg.get "data" = .ok d)
    (h3 : phaseLoader d = .ok la)
    (h4 : phaseDataset d = .ok ds)
    (h5 : phaseDataLoader cfg d args.distributed = .ok dl)
    (h6 : phaseModel cfg = .ok hy)
    (h7 : phaseCkpt w cfg (w.mkFNN3d hy) = .ok (m1, used))
    (h8 : freezeRef (bindModel args.distributed rank m1) = .ok fr)
    (h9 : phaseOptimizer cfg = .ok lr)
    (h10 : phaseScheduler cfg = .ok (ms, g))
    (h11 : phaseOthers cfg = .ok (pj, gp)) :
    (subprocess_fn w rank args).1 =
      (if args.distributed then [Event.setup rank args.num_gpus] else []) ++
      [Event.printRunning, Event.loadConfig, Event.mkNSLoader, Event.mkDataset,
       Event.mkDataLoader, Event.mkModel] ++
      (if used then [Event.loadCkpt] else []) ++
      (if args.distributed then [Event.wrapDDP] else []) ++
      [Event.freezeParams, Event.mkOptimizer, Event.mkScheduler,
       Event.mkForcing, Event.callTrain] ++
      (if args.distributed then [Event.cleanup] else []) ++
      [Event.printDone] ∧
    ((subprocess_fn w rank args).1.filter Event.isCallTrain).length = 1 := by
  have hb : (subprocessBody w rank args).1 =
      [Event.loadConfig, Event.mkNSLoader, Event.mkDataset, Event.mkDataLoader,
       Event.mkModel] ++
      (if used then [Event.loadCkpt] else []) ++
      (if args.distributed then [Event.wrapDDP] else []) ++
      [Event.freezeParams, Event.mkOptimizer, Event.mkScheduler,
       Event.mkForcing, Event.callTrain] ++
      (if args.distributed then [Event.cleanup] else []) ++
      [Event.printDone] := by
    simp [subprocessBody, h1, h2, h3, h4, h5, h6, h7, h8, h9, h10, h11]
  constructor
  · have hs : (subprocess_fn w rank args).1 =
        (if args.distributed then [Event.setup rank args.num_gpus] else []) ++
        Event.printRunning :: (subprocessBody w rank args).1 := rfl
    rw [hs, hb]
    simp
  · have hs : (subprocess_fn w rank args).1 =
        (if args.distributed then [Event.setup rank args.num_gpus] else []) ++
        Event.printRunning :: (subprocessBody w rank args).1 := rfl
    rw [hs, hb]
    cases used <;> cases hdist : args.distributed <;>
      simp [Event.isCallTrain, List.filter_append]

/-- The model and checkpoint flag produced by the checkpoint phase on
the sample configuration. -/
def sampleCkptPair : FNN3d × Bool :=
  (phaseCkpt sampleWorld sampleCfg sampleModel).toOption.getD
    (sampleModel, false)

/-- The model variable after the freezing step of the sample run. -/
def sampleFrozen : ModelRef :=
  (freezeRef (bindModel false 0 sampleCkptPair.1)).toOption.getD default

/-- Witness for C9 at the sample run. -/
theorem C9_step_order_witness :
    ((subprocess_fn sampleWorld 0 sampleArgs).1 =
      (if sampleArgs.distributed then [Event.setup 0 sampleArgs.num_gpus]
       else []) ++
      [Event.printRunning, Event.loadConfig, Event.mkNSLoader, Event.mkDataset,
       Event.mkDataLoader, Event.mkModel] ++
      (if sampleCkptPair.2 then [Event.loadCkpt] else []) ++
      (if sampleArgs.distributed then [Event.wrapDDP] else []) ++
      [Event.freezeParams, Event.mkOptimizer, Event.mkScheduler,
       Event.mkForcing, Event.callTrain] ++
      (if sampleArgs.distributed then [Event.cleanup] else []) ++
      [Event.printDone]) ∧
    ((subprocess_fn sampleWorld 0 sampleArgs).1.filter
      Event.isCallTrain).length = 1 :=
  C9_step_order sampleWorld 0 sampleArgs sampleCfg sampleDataCfg
    sampleLoaderArgs sampleDatasetArgs sampleDataLoaderArgs sampleHyper
    sampleCkptPair.1 sampleCkptPair.2 sampleFrozen (.int 1)
    (.list [.int 20, .int 40]) (.int 1) (.str "PINO") (.str "default")
    (by rfl) (by rfl) (by rfl) (by rfl) (by rfl) (by rfl) (by rfl) (by rfl)
    (by rfl) (by rfl) (by rfl)

/-- C3: exactly when num_gpus exceeds 1 the entry point spawns
num_gpus worker processes, each running subprocess_fn at a distinct
rank in 0..num_gpus-1 and each joining the process group through
setup(rank, num_gpus) before any other work; otherwise subprocess_fn
runs exactly once in the main process at rank 0 and setup and
cleanup are never called. -/
theorem C3_spawn_iff (w : World) (p : ParsedArgs) :
    (1 < p.num_gpus →
      mainRun w p = (List.range p.num_gpus.toNat).map (fun r =>
        { tag := ProcTag.spawned, rank := r,
          run := subprocess_fn w r (mkArgs p) }) ∧
      (mainRun w p).length = p.num_gpus.toNat ∧
      (mainRun w p).map ProcessRun.rank = List.range p.num_gpus.toNat ∧
      (∀ pr ∈ mainRun w p, pr.tag = ProcTag.spawned ∧
        ∃ t, pr.run.1 = Event.setup pr.rank p.num_gpus :: t)) ∧
    (¬ 1 < p.num_gpus →
      mainRun w p =
        [{ tag := ProcTag.main, rank := 0,
           run := subprocess_fn w 0 (mkArgs p) }] ∧
      ((subprocess_fn w 0 (mkArgs p)).1.all
        fun e => !(e.isSetup || e.isCleanup)) = true) := by
  constructor
  · intro hgt
    have hdist : (mkArgs p).distributed = true := by simp [mkArgs, hgt]
    have hmain : mainRun w p = (List.range p.num_gpus.toNat).map (fun r =>
        { tag := ProcTag.spawned, rank := r,
          run := subprocess_fn w r (mkArgs p) }) := by
      simp [mainRun, hdist]
      rfl
    refine ⟨hmain, by rw [hmain]; simp,
      by rw [hmain]; simp [Function.comp_def], ?_⟩
    intro pr hpr
    rw [hmain, List.mem_map] at hpr
    obtain ⟨r, hr, rfl⟩ := hpr
    refine ⟨rfl, ?_⟩
    simpa [mkArgs] using @subprocess_fn_dist_head w r (mkArgs p) hdist
  · intro hle
    have hdist : (mkArgs p).distributed = false := by
      simp only [mkArgs]
      exact decide_eq_false hle
    refine ⟨by simp [mainRun, hdist], ?_⟩
    have hall := @subprocess_fn_noDist w 0 (mkArgs p) hdist
    rw [List.all_eq_true] at hall ⊢
    intro e he
    have h2 := hall e he
    cases e <;> simp_all [Event.isSetup, Event.isCleanup, Event.isWrapDDP]

/-- Witness for C3: a two-GPU and a one-GPU invocation. -/
theorem C3_spawn_iff_witness :
    (mainRun sampleWorld
        { config_path := some "config.yaml", log := false, num_gpus := 2 } =
      (List.range (2 : Int).toNat).map (fun r =>
        { tag := ProcTag.spawned, rank := r,
          run := subprocess_fn sampleWorld r (mkArgs
            { config_path := some "config.yaml", log := false,
              num_gpus := 2 }) })) ∧
    (mainRun sampleWorld
        { config_path := some "config.yaml", log := false, num_gpus := 1 } =
      [{ tag := ProcTag.main, rank := 0,
         run := subprocess_fn sampleWorld 0 (mkArgs
           { config_path := some "config.yaml", log := false,
             num_gpus := 1 }) }]) :=
  ⟨((C3_spawn_iff sampleWorld
      { config_path := some "config.yaml", log := false, num_gpus := 2 }).1
      (by decide)).1,
   ((C3_spawn_iff sampleWorld
      { config_path := some "config.yaml", log := false, num_gpus := 1 }).2
      (by decide)).1⟩

/-- C10: without --num_gpus the default 1 makes distributed false:
subprocess_fn runs exactly once with rank 0 in the main process,
mp.spawn is never used, no process group is set up or cleaned up,
and the model is never wrapped in DDP. -/
theorem C10_default_single_process (w : World) (argv : List String)
    (a : ParsedArgs) (hng : "--num_gpus" ∉ argv)
    (hp : parse_args argv = .ok a) :
    a.num_gpus = 1 ∧
    (mkArgs a).distributed = false ∧
    mainRun w a =
      [{ tag := ProcTag.main, rank := 0,
         run := subprocess_fn w 0 (mkArgs a) }] ∧
    ((subprocess_fn w 0 (mkArgs a)).1.all
      fun e => !(e.isSetup || e.isCleanup || e.isWrapDDP)) = true ∧
    (∀ r, (subprocess_fn w 0 (mkArgs a)).2 = .ok r →
      ∃ m, r.receiver = ModelRef.plain m) := by
  have hnum : a.num_gpus = 1 := by
    simpa using (parseTokens_preserve argv _ a hp).2 hng
  have hdist : (mkArgs a).distributed = false := by
    simp [mkArgs, hnum]
  refine ⟨hnum, hdist, by simp [mainRun, hdist],
    @subprocess_fn_noDist w 0 (mkArgs a) hdist, ?_⟩
  intro r hr
  obtain ⟨cfg, dc, _, _, _, _, _, _, _, _, hrecv, _⟩ := subprocessBody_ok hr
  refine ⟨r.modelAfterCkpt, ?_⟩
  rw [hrecv, hdist]
  simp [bindModel]

/-- Witness for C10 at a concrete invocation without the num_gpus
flag. -/
theorem C10_default_single_process_witness :
    ({ config_path := some "config.yaml", log := false, num_gpus := 1 }
        : ParsedArgs).num_gpus = 1 ∧
    (mkArgs { config_path := some "config.yaml", log := false,
              num_gpus := 1 }).distributed = false ∧
    mainRun sampleWorld
        { config_path := some "config.yaml", log := false, num_gpus := 1 } =
      [{ tag := ProcTag.main, rank := 0,
         run := subprocess_fn sampleWorld 0 (mkArgs
           { config_path := some "config.yaml", log := false,
             num_gpus := 1 }) }] ∧
    ((subprocess_fn sampleWorld 0 (mkArgs
        { config_path := some "config.yaml", log := false,
          num_gpus := 1 })).1.all
      fun e => !(e.isSetup || e.isCleanup || e.isWrapDDP)) = true ∧
    (∀ r, (subprocess_fn sampleWorld 0 (mkArgs
        { config_path := some "config.yaml", log := false,
          num_gpus := 1 })).2 = .ok r →
      ∃ m, r.receiver = ModelRef.plain m) :=
  C10_default_single_process sampleWorld ["--config_path", "config.yaml"]
    { config_path := some "config.yaml", log := false, num_gpus := 1 }
    (by decide) (by rfl)

/-- C6: the command-line surface is exactly the three declared flags:
a string-valued --config_path, a --log switch that stays false
unless supplied, and an integer --num_gpus defaulting to 1; any
other option is rejected. -/
theorem C6_cli_surface :
    parserArgs.map ArgSpec.name = ["--config_path", "--log", "--num_gpus"] ∧
    parserArgs.length = 3 ∧
    parserArgs.map ArgSpec.kind
      = [ArgKind.storeStr, ArgKind.storeTrue, ArgKind.storeInt] ∧
    parserArgs.map ArgSpec.defaultInt = [none, none, some 1] ∧
    parse_args [] = .ok { config_path := none, log := false, num_gpus := 1 } ∧
    (∀ argv a, parse_args argv = .ok a → "--log" ∉ argv → a.log = false) ∧
    (∀ v, parse_args ["--config_path", v]
      = .ok { config_path := some v, log := false, num_gpus := 1 }) ∧
    (∀ s n, str2int s = some n → parse_args ["--num_gpus", s]
      = .ok { config_path := none, log := false, num_gpus := n }) ∧
    (∀ tok rest, tok ∉ ["--config_path", "--log", "--num_gpus"] →
      parse_args (tok :: rest) = .error (.unrecognized tok)) := by
  refine ⟨rfl, rfl, rfl, rfl, rfl, ?_, ?_, ?_, ?_⟩
  · intro argv a hp hn
    exact (parseTokens_preserve argv _ a hp).1 hn
  · intro v
    rfl
  · intro s n hs
    show parseTokens ["--num_gpus", s]
        { config_path := none, log := false, num_gpus := 1 } = _
    rw [parseTokens.eq_def]
    dsimp only
    rw [if_neg (by decide), if_neg (by decide), if_pos rfl, hs]
    rfl
  · intro tok rest hn
    have h1 : ¬tok = "--log" := fun hh => hn (by simp [hh])
    have h2 : ¬tok = "--config_path" := fun hh => hn (by simp [hh])
    have h3 : ¬tok = "--num_gpus" := fun hh => hn (by simp [hh])
    show parseTokens (tok :: rest)
        { config_path := none, log := false, num_gpus := 1 } = _
    rw [parseTokens.eq_def]
    dsimp only
    rw [if_neg h1, if_neg h2, if_neg h3]

/-- Witness for C6 at concrete command lines. -/
theorem C6_cli_surface_witness :
    parse_args ["--config_path", "a.yaml"]
      = .ok { config_path := some "a.yaml", log := false, num_gpus := 1 } ∧
    parse_args ["--num_gpus", "3"]
      = .ok { config_path := none, log := false, num_gpus := 3 } ∧
    parse_args ["--foo"] = .error (.unrecognized "--foo") ∧
    ({ config_path := some "a.yaml", log := false, num_gpus := 1 }
        : ParsedArgs).log = false :=
  ⟨C6_cli_surface.2.2.2.2.2.2.1 "a.yaml",
   C6_cli_surface.2.2.2.2.2.2.2.1 "3" 3 (by rfl),
   C6_cli_surface.2.2.2.2.2.2.2.2 "--foo" [] (by decide),
   C6_cli_surface.2.2.2.2.2.1 ["--config_path", "a.yaml"] _
     (C6_cli_surface.2.2.2.2.2.2.1 "a.yaml") (by decide)⟩
